import Mathlib

/-!
Verification of the worker-side connection/RPC dispatch engine
(`packages/trigger-sdk/src/client.ts`): a shallow embedding of the
`TriggerClient` class — its constructor, `listen`, the `TRIGGER_WORKFLOW`
handler with its invocation context, the `#send` retry loop, and the
`onClose` handler — together with theorems settling the specification's
claims about them.
-/

mutual

/-- A JavaScript value as it can flow through the client: the JSON base
types (strings, integer numbers, booleans, null, arrays, records) plus
the non-transportable values `undefined` and functions. Arrays and
records are mutually inductive lists so that all recursion below is
structural. -/
inductive JsValue where
  | vStr (s : String)
  | vNum (n : Int)
  | vBool (b : Bool)
  | vNull
  | vUndefined
  | vFunc
  | vArr (xs : JsArr)
  | vObj (fs : JsObj)

/-- A JavaScript array of `JsValue`s. -/
inductive JsArr where
  | nil
  | cons (hd : JsValue) (tl : JsArr)

/-- A JavaScript record: ordered fields of string keys and `JsValue`s. -/
inductive JsObj where
  | nil
  | cons (key : String) (val : JsValue) (tl : JsObj)

end

deriving instance DecidableEq for JsValue, JsArr, JsObj

/-- Modelled from the spec: the JSON string escaping of one character as
performed by the host `JSON.stringify` built-in (an external collaborator,
not part of the repository source), restricted to the escapes exercised
here. -/
def escJsonChar (c : Char) : String :=
  if c = '\\' then "\\\\"
  else if c = '"' then "\\\""
  else if c = '\n' then "\\n"
  else if c = '\t' then "\\t"
  else if c = '\r' then "\\r"
  else String.singleton c

/-- Modelled from the spec: JSON string escaping of a whole string. -/
def escJson (s : String) : String :=
  String.join (s.toList.map escJsonChar)

mutual

/-- Modelled from the spec: the host `JSON.stringify` built-in (external
collaborator; the spec's schema-layer contract says serialization is
stable and reversible for the base payload types). `none` models the
JavaScript result `undefined` for a bare non-transportable value. -/
def jsonStringifyStr : JsValue → Option String
  | .vStr s => some ("\"" ++ escJson s ++ "\"")
  | .vNum n => some (toString n)
  | .vBool b => some (if b then "true" else "false")
  | .vNull => some "null"
  | .vUndefined => none
  | .vFunc => none
  | .vArr xs => some ("[" ++ String.intercalate "," (jsonStringifyArr xs) ++ "]")
  | .vObj fs => some ("\x7b" ++ String.intercalate "," (jsonStringifyObj fs) ++ "\x7d")

/-- Array elements: a non-transportable element serializes as `null`. -/
def jsonStringifyArr : JsArr → List String
  | .nil => []
  | .cons x xs => ((jsonStringifyStr x).getD "null") :: jsonStringifyArr xs

/-- Record fields: a field with a non-transportable value is dropped. -/
def jsonStringifyObj : JsObj → List String
  | .nil => []
  | .cons k v fs =>
    (match jsonStringifyStr v with
     | some s => ["\"" ++ escJson k ++ "\":" ++ s]
     | none => []) ++ jsonStringifyObj fs

end

mutual

/-- Modelled from the spec: `JSON.parse(JSON.stringify(v))`, the
serialize/deserialize deep-copy round trip through the host built-ins
(external collaborators): base values pass through unchanged, a
non-transportable element of an array becomes `null`, a record field with
a non-transportable value is dropped, and a bare non-transportable value
makes the round trip fail (`JSON.parse(undefined)` throws). -/
def jsonRoundTrip : JsValue → Option JsValue
  | .vStr s => some (.vStr s)
  | .vNum n => some (.vNum n)
  | .vBool b => some (.vBool b)
  | .vNull => some .vNull
  | .vUndefined => none
  | .vFunc => none
  | .vArr xs => some (.vArr (jsonRoundTripArr xs))
  | .vObj fs => some (.vObj (jsonRoundTripObj fs))

/-- Round trip of an array: non-transportable elements become `null`. -/
def jsonRoundTripArr : JsArr → JsArr
  | .nil => .nil
  | .cons x xs => .cons ((jsonRoundTrip x).getD .vNull) (jsonRoundTripArr xs)

/-- Round trip of a record: fields with non-transportable values are
dropped. -/
def jsonRoundTripObj : JsObj → JsObj
  | .nil => .nil
  | .cons k v fs =>
    match jsonRoundTrip v with
    | some w => .cons k w (jsonRoundTripObj fs)
    | none => jsonRoundTripObj fs

end

mutual

/-- A value built from the base payload types only: strings, numbers,
booleans, null, arrays and nested records — no `undefined`, no
functions. -/
def isBase : JsValue → Bool
  | .vStr _ => true
  | .vNum _ => true
  | .vBool _ => true
  | .vNull => true
  | .vUndefined => false
  | .vFunc => false
  | .vArr xs => isBaseArr xs
  | .vObj fs => isBaseObj fs

/-- All elements of the array are base values. -/
def isBaseArr : JsArr → Bool
  | .nil => true
  | .cons x xs => isBase x && isBaseArr xs

/-- All field values of the record are base values. -/
def isBaseObj : JsObj → Bool
  | .nil => true
  | .cons _ v fs => isBase v && isBaseObj fs

end

/-- A value thrown (or used to reject a promise) in the client: an
`Error` instance, a `TimeoutError` instance (the class exported by the
connection module, an `Error` subclass), or a non-error value such as a
plain string or `undefined`. -/
inductive ThrownValue where
  | errorVal (name message : String) (stack : Option String)
  | timeoutErrorVal (message : String) (stack : Option String)
  | stringVal (s : String)
  | undefinedVal
deriving DecidableEq

/-- JavaScript `instanceof Error` on a thrown value. -/
def isInstanceOfError : ThrownValue → Bool
  | .errorVal _ _ _ => true
  | .timeoutErrorVal _ _ => true
  | _ => false

/-- JavaScript `instanceof TimeoutError` on a thrown value, as tested by
the retry loop in `TriggerClient.send`. -/
def isInstanceOfTimeoutError : ThrownValue → Bool
  | .timeoutErrorVal _ _ => true
  | _ => false

/-- The normalized failure description sent in a `SEND_WORKFLOW_ERROR`
call: `name`, `message` and optional `stackTrace`. -/
structure ErrorDescription where
  name : String
  message : String
  stackTrace : Option String
deriving DecidableEq

/-- `parseAnyError` from the `TRIGGER_WORKFLOW` handler: an
`instanceof Error` value keeps its `name`, `message` and `stack` (as
`stackTrace`); any other thrown value becomes the generic
`UnknownError` description. -/
def parseAnyError : ThrownValue → ErrorDescription
  | .errorVal n m st => ⟨n, m, st⟩
  | .timeoutErrorVal m st => ⟨"TimeoutError", m, st⟩
  | .stringVal _ => ⟨"UnknownError", "An unknown error occurred", none⟩
  | .undefinedVal => ⟨"UnknownError", "An unknown error occurred", none⟩

/-- `TriggerClient.retryIntervalMs`, the fixed backoff in milliseconds. -/
def retryIntervalMs : Nat := 3000

/-- The outcome of one attempt of an outbound RPC send: the promise
resolves with a response value or rejects with a thrown value. -/
inductive Attempt where
  | success (resp : JsValue)
  | failure (e : ThrownValue)
deriving DecidableEq

/-- What one execution of the retry loop did: the final result, how many
attempts it made, and the total backoff time it slept. -/
structure SendRun where
  result : Except ThrownValue JsValue
  attemptsMade : Nat
  waitedMs : Nat

/-- `TriggerClient.send`: the `while (true)` loop around
`serverRPC.send`. Each list element is the outcome of one attempt in
order. On success the loop returns that response; on a rejection that is
`instanceof TimeoutError` it sleeps `retryMs` and retries; any other
rejection is rethrown at once. `none` models a loop still running when
the attempt stream is exhausted (the loop itself never gives up). -/
def sendLoop (retryMs : Nat) : List Attempt → Option SendRun
  | [] => none
  | .success r :: _ => some ⟨.ok r, 1, 0⟩
  | .failure e :: rest =>
    if isInstanceOfTimeoutError e then
      match sendLoop retryMs rest with
      | none => none
      | some s => some ⟨s.result, s.attemptsMade + 1, s.waitedMs + retryMs⟩
    else
      some ⟨.error e, 1, 0⟩

/-- The `apiKey`/`endpoint` options given to the `TriggerClient`
constructor (`undefined` modelled as `none`). -/
structure TriggerOptionsModel where
  apiKey : Option String
  endpoint : Option String

/-- The process environment as the constructor can observe it.
`TRIGGER_API_KEY` is the variable the constructor reads;
`TRIGGER_ENDPOINT` stands for an endpoint-bearing environment variable
(the claim asserts an environment fallback for the endpoint exists; the
source reads no such variable, which the theorems make visible). -/
structure ProcessEnvModel where
  TRIGGER_API_KEY : Option String
  TRIGGER_ENDPOINT : Option String

/-- The client fields assigned by the constructor, plus the
`isConnected` flag (initially `false`). -/
structure ClientState where
  apiKey : String
  endpoint : String
  isConnected : Bool
deriving DecidableEq

/-- The constructor's default endpoint. -/
def defaultEndpoint : String := "ws://trigger.dev/ws"

/-- The message of the error thrown when no usable API key is found. -/
def apiKeyErrorMessage : String :=
  "Cannot connect to Trigger because of invalid API Key: Please include an API Key in the `apiKey` option or in the `TRIGGER_API_KEY` environment variable."

/-- The `TriggerClient` constructor: resolves the API key as
`options.apiKey ?? process.env.TRIGGER_API_KEY` (the `??` falls through
only on `undefined`), throws when the resolved key is missing or falsy
(the empty string), and otherwise records the key and
`options.endpoint ?? "ws://trigger.dev/ws"`. No connection is attempted
here; `isConnected` starts `false`. -/
def construct (options : TriggerOptionsModel) (env : ProcessEnvModel) :
    Except String ClientState :=
  let apiKeyResolved : Option String :=
    match options.apiKey with
    | some k => some k
    | none => env.TRIGGER_API_KEY
  match apiKeyResolved with
  | none => .error apiKeyErrorMessage
  | some k =>
    if k = "" then .error apiKeyErrorMessage
    else .ok { apiKey := k, endpoint := options.endpoint.getD defaultEndpoint,
               isConnected := false }

/-- The fate of a JavaScript promise: resolved with a value, or rejected
with an error message. -/
inductive Async (α : Type) where
  | resolved (a : α)
  | rejected (message : String)
deriving DecidableEq

/-- The `INITIALIZE_HOST` handshake response as tested by
`initializeHost`: `response?.type === "error"` distinguishes an
error-typed response (carrying a message) from a success-typed one. -/
inductive HandshakeResponse where
  | success
  | errorResp (message : String)
deriving DecidableEq

/-- `TriggerClient.initializeHost` (given that a connection and the RPC
channel exist): awaits the `INITIALIZE_HOST` send and throws
`new Error(response.message)` when the response is error-typed, so the
promise it returns rejects with the handshake's error message; a
success-typed (or absent) response lets it resolve. -/
def initializeHostOutcome (sendResult : Async (Option HandshakeResponse)) :
    Async Unit :=
  match sendResult with
  | .rejected m => .rejected m
  | .resolved none => .resolved ()
  | .resolved (some .success) => .resolved ()
  | .resolved (some (.errorResp m)) => .rejected m

/-- `TriggerClient.listen`: awaits `initializeConnection` (so a
connection rejection propagates), then calls `initializeRPC()` and
`initializeHost()` WITHOUT awaiting either, so the promise returned by
`initializeHost` — whatever its fate — does not affect `listen`'s own
resolution. -/
def listen (connection : Async Unit)
    (hostSend : Async (Option HandshakeResponse)) : Async Unit :=
  match connection with
  | .rejected m => .rejected m
  | .resolved _ =>
    let _hostInit := initializeHostOutcome hostSend
    .resolved ()

/-- Lines 83–84 of the source: after `connection.connect()` resolves,
the client stores the connection and sets `isConnected := true`. -/
def afterConnect (s : ClientState) : ClientState :=
  { s with isConnected := true }

/-- The console lines written by the `onClose` handler: the close code
always, the reason only when it is truthy (non-empty). -/
def onCloseLog (code : Nat) (reason : String) : List String :=
  ("Could not connect to trigger.dev (code " ++ toString code ++ ")")
    :: (if reason = "" then [] else [reason])

/-- The `connection.onClose` handler attached in
`initializeConnection`: it only writes the close code and reason to the
error log and returns; the client state — in particular `isConnected` —
is left untouched. -/
def onCloseHandler (s : ClientState) (code : Nat) (reason : String) :
    ClientState × List String :=
  (s, onCloseLog code reason)

/-- The `meta` routing block of a `TRIGGER_WORKFLOW` payload. -/
structure WorkflowMeta where
  environment : String
  apiKey : String
  organizationId : String
  workflowId : String
deriving DecidableEq

/-- The payload of an inbound `TRIGGER_WORKFLOW` call: run identifier,
routing metadata and the triggering input (`data.trigger.input`). -/
structure TriggerWorkflowData where
  id : String
  meta : WorkflowMeta
  input : JsValue
deriving DecidableEq

/-- The immutable identifiers of the per-invocation `TriggerContext`
built by the handler. -/
structure TriggerContextIds where
  id : String
  environment : String
  apiKey : String
  organizationId : String
deriving DecidableEq

/-- Construction of the invocation context from the payload (lines
100–104 of the source). -/
def buildContext (data : TriggerWorkflowData) : TriggerContextIds :=
  ⟨data.id, data.meta.environment, data.meta.apiKey, data.meta.organizationId⟩

/-- An outbound RPC call issued by the handler or by the invocation
context, with the request fields the source passes. -/
inductive OutCall where
  | sendLog (id level message : String) (propertiesJson : Option String)
  | sendEvent (id : String) (event : JsValue)
  | completeRun (id : String) (output : Option String) (workflowId : String)
  | sendWorkflowError (id workflowId : String) (error : ErrorDescription)
deriving DecidableEq

/-- Whether an outbound call is a `COMPLETE_WORKFLOW_RUN`. -/
def isCompleteCall : OutCall → Bool
  | .completeRun _ _ _ => true
  | _ => false

/-- Whether an outbound call is a `SEND_WORKFLOW_ERROR`. -/
def isWorkflowErrorCall : OutCall → Bool
  | .sendWorkflowError _ _ _ => true
  | _ => false

/-- How one raw `serverRPC.send` settles: its promise resolves, or
rejects with a thrown value (e.g. a `TimeoutError`). -/
inductive SendResult where
  | ok
  | fail (e : ThrownValue)
deriving DecidableEq

/-- How the user-supplied run function settles: it resolves with an
output value or rejects with a thrown value. -/
inductive RunResult where
  | resolved (output : JsValue)
  | rejected (e : ThrownValue)
deriving DecidableEq

/-- The outcome-reporting calls of the `TRIGGER_WORKFLOW` handler, i.e.
the `.then(...).catch(...)` chain hung on the user run promise. When the
run resolves, the `then` branch issues one raw `COMPLETE_WORKFLOW_RUN`
send (id, `JSON.stringify(output)`, `meta.workflowId`); because the
`catch` is attached after the `then`, a rejection of that send also
lands in the `catch`, which then issues a `SEND_WORKFLOW_ERROR` carrying
`parseAnyError` of the send's rejection. When the run rejects, only the
`catch` runs and issues one `SEND_WORKFLOW_ERROR` carrying
`parseAnyError` of the thrown value. Both sends are raw
`serverRPC.send` calls, not the retrying `TriggerClient.send`. -/
def outcomeCalls (data : TriggerWorkflowData) (result : RunResult)
    (completeSend : SendResult) : List OutCall :=
  match result with
  | .resolved output =>
    .completeRun data.id (jsonStringifyStr output) data.meta.workflowId ::
      (match completeSend with
       | .ok => []
       | .fail e =>
         [.sendWorkflowError data.id data.meta.workflowId (parseAnyError e)])
  | .rejected e =>
    [.sendWorkflowError data.id data.meta.workflowId (parseAnyError e)]

/-- Modelled from the spec: `ContextLogger` (module `./logger`, not under
the sources given) forwards each `log` call once to the callback the
handler supplies. The callback (lines 105–114 of the source) issues one
raw `SEND_LOG` send carrying the run id, level, message and
`JSON.stringify(properties ?? \x7b\x7d)`. -/
def contextLogCalls (runId level message : String)
    (properties : Option JsValue) : List OutCall :=
  [.sendLog runId level message
    (jsonStringifyStr (properties.getD (JsValue.vObj JsObj.nil)))]

/-- `fireEvent` from the invocation context (lines 115–120): deep-copies
the event through `JSON.parse(JSON.stringify(event))` and issues one raw
`SEND_EVENT` send tagged with the run id; if the round trip throws (bare
non-transportable event), the send is never reached. -/
def fireEventCalls (runId : String) (event : JsValue) : List OutCall :=
  match jsonRoundTrip event with
  | some copied => [.sendEvent runId copied]
  | none => []

/-- One call user code makes on its invocation context while running. -/
inductive UserAction where
  | log (level message : String) (properties : Option JsValue)
  | fire (event : JsValue)

/-- The outbound calls one context action produces. -/
def contextActionCalls (runId : String) : UserAction → List OutCall
  | .log level message properties => contextLogCalls runId level message properties
  | .fire event => fireEventCalls runId event

/-- One observable event of a workflow invocation, in order: the user
run function is invoked, context calls are sent (each recorded with how
its own send settled), the run settles, and the outcome calls go out. -/
inductive InvEvent where
  | runInvoked
  | contextCall (c : OutCall) (sendOutcome : SendResult)
  | runSettled (r : RunResult)
  | outcomeCall (c : OutCall)
deriving DecidableEq

/-- Whether an invocation event is an outcome-reporting call. -/
def isOutcomeEvent : InvEvent → Bool
  | .outcomeCall _ => true
  | _ => false

/-- Whether an invocation event is the invocation of the user run
function. -/
def isRunInvokedEvent : InvEvent → Bool
  | .runInvoked => true
  | _ => false

/-- Pairs each context call with the settlement of its own send (the
environment's choice); missing entries default to a resolving send. -/
def attachOutcomes : List OutCall → List SendResult → List InvEvent
  | [], _ => []
  | c :: cs, [] => .contextCall c .ok :: attachOutcomes cs []
  | c :: cs, o :: os => .contextCall c o :: attachOutcomes cs os

/-- The full observable trace of one `TRIGGER_WORKFLOW` invocation: the
handler builds the context and invokes the user run function exactly
once; while running, the user's context actions each issue their sends
(whose own settlements `logOutcomes` records); the run settles; then the
`.then`/`.catch` chain issues the outcome calls of `outcomeCalls`. -/
def invocationTrace (data : TriggerWorkflowData) (actions : List UserAction)
    (logOutcomes : List SendResult) (result : RunResult)
    (completeSend : SendResult) : List InvEvent :=
  InvEvent.runInvoked
    :: (attachOutcomes (actions.flatMap (contextActionCalls data.id)) logOutcomes
        ++ InvEvent.runSettled result
        :: (outcomeCalls data result completeSend).map InvEvent.outcomeCall)

/-- Follows the claim's words, not the source: the number of attempts
the retry policy would make for one outbound call given the same
attempt outcomes — retrying after every `TimeoutError` rejection,
stopping on the first other settlement. Used only to exhibit how the
handler's raw single-attempt sends diverge from the claim. -/
def attemptsIssuedClaimed : List Attempt → Nat
  | [] => 0
  | .success _ :: _ => 1
  | .failure e :: rest =>
    if isInstanceOfTimeoutError e then 1 + attemptsIssuedClaimed rest else 1

mutual

theorem jsonRoundTrip_base : ∀ v : JsValue, isBase v = true → jsonRoundTrip v = some v
  | .vStr _, _ => rfl
  | .vNum _, _ => rfl
  | .vBool _, _ => rfl
  | .vNull, _ => rfl
  | .vArr xs, h => by
    simp only [jsonRoundTrip, jsonRoundTripArr_base xs (by simpa [isBase] using h)]
  | .vObj fs, h => by
    simp only [jsonRoundTrip, jsonRoundTripObj_base fs (by simpa [isBase] using h)]

theorem jsonRoundTripArr_base : ∀ xs : JsArr, isBaseArr xs = true → jsonRoundTripArr xs = xs
  | .nil, _ => rfl
  | .cons x xs, h => by
    have hx : isBase x = true := by
      have := h; simp [isBaseArr, Bool.and_eq_true] at this; exact this.1
    have hxs : isBaseArr xs = true := by
      have := h; simp [isBaseArr, Bool.and_eq_true] at this; exact this.2
    simp [jsonRoundTripArr, jsonRoundTrip_base x hx, jsonRoundTripArr_base xs hxs]

theorem jsonRoundTripObj_base : ∀ fs : JsObj, isBaseObj fs = true → jsonRoundTripObj fs = fs
  | .nil, _ => rfl
  | .cons k v fs, h => by
    have hv : isBase v = true := by
      have := h; simp [isBaseObj, Bool.and_eq_true] at this; exact this.1
    have hfs : isBaseObj fs = true := by
      have := h; simp [isBaseObj, Bool.and_eq_true] at this; exact this.2
    simp [jsonRoundTripObj, jsonRoundTrip_base v hv, jsonRoundTripObj_base fs hfs]

end

theorem attachOutcomes_countP (p : InvEvent → Bool)
    (hp : ∀ c o, p (InvEvent.contextCall c o) = false) :
    ∀ (cs : List OutCall) (os : List SendResult),
      (attachOutcomes cs os).countP p = 0
  | [], _ => rfl
  | c :: cs, [] => by
    simp [attachOutcomes, List.countP_cons, hp, attachOutcomes_countP p hp cs []]
  | c :: cs, o :: os => by
    simp [attachOutcomes, List.countP_cons, hp, attachOutcomes_countP p hp cs os]

theorem attachOutcomes_filter_outcome :
    ∀ (cs : List OutCall) (os : List SendResult),
      (attachOutcomes cs os).filter isOutcomeEvent = []
  | [], _ => rfl
  | c :: cs, [] => by
    simp [attachOutcomes, List.filter_cons, isOutcomeEvent,
      attachOutcomes_filter_outcome cs []]
  | c :: cs, o :: os => by
    simp [attachOutcomes, List.filter_cons, isOutcomeEvent,
      attachOutcomes_filter_outcome cs os]

/-- Claim C1, code evaluated at the failing input: with the connection
established and an error-typed `INITIALIZE_HOST` handshake response
carrying "Invalid API key", the promise of `initializeHost` rejects with
exactly that message, but `listen` — which does not await
`initializeHost()` — resolves anyway, so the startup operation does not
reject and the handshake failure is not surfaced to the caller of
`listen`. -/
theorem claim_C1_handshake_not_surfaced :
    listen (.resolved ()) (.resolved (some (.errorResp "Invalid API key")))
      = Async.resolved ()
    ∧ initializeHostOutcome (.resolved (some (.errorResp "Invalid API key")))
      = Async.rejected "Invalid API key" :=
  ⟨rfl, rfl⟩

/-- Claim C3: the retrying send wraps one outbound call in an unbounded
loop with backoff `retryIntervalMs = 3000`: a successful attempt
resolves the call with that attempt's response after exactly one
attempt; an attempt rejecting with a non-`TimeoutError` value (an
ordinary `Error`, a string, `undefined`) propagates immediately with
exactly one attempt and no waiting; an attempt rejecting with a
`TimeoutError` adds one attempt and a 3000 ms sleep and continues the
loop; and `k` timeouts followed by a success resolve with the eventual
response after `k + 1` attempts and `k * 3000` ms of backoff. -/
theorem claim_C3_send_retry_policy :
    retryIntervalMs = 3000
    ∧ (∀ (r : JsValue) (rest : List Attempt),
        sendLoop retryIntervalMs (Attempt.success r :: rest)
          = some ⟨Except.ok r, 1, 0⟩)
    ∧ (∀ (n m : String) (st : Option String) (rest : List Attempt),
        sendLoop retryIntervalMs
            (Attempt.failure (ThrownValue.errorVal n m st) :: rest)
          = some ⟨Except.error (ThrownValue.errorVal n m st), 1, 0⟩)
    ∧ (∀ (s : String) (rest : List Attempt),
        sendLoop retryIntervalMs
            (Attempt.failure (ThrownValue.stringVal s) :: rest)
          = some ⟨Except.error (ThrownValue.stringVal s), 1, 0⟩)
    ∧ (∀ rest : List Attempt,
        sendLoop retryIntervalMs (Attempt.failure ThrownValue.undefinedVal :: rest)
          = some ⟨Except.error ThrownValue.undefinedVal, 1, 0⟩)
    ∧ (∀ (m : String) (st : Option String) (rest : List Attempt),
        sendLoop retryIntervalMs
            (Attempt.failure (ThrownValue.timeoutErrorVal m st) :: rest)
          = (sendLoop retryIntervalMs rest).map
              (fun s => ⟨s.result, s.attemptsMade + 1, s.waitedMs + retryIntervalMs⟩))
    ∧ (∀ (k : Nat) (m : String) (st : Option String) (r : JsValue),
        sendLoop retryIntervalMs
            (List.replicate k (Attempt.failure (ThrownValue.timeoutErrorVal m st))
              ++ [Attempt.success r])
          = some ⟨Except.ok r, k + 1, k * retryIntervalMs⟩) := by
  refine ⟨rfl, fun r rest => rfl, fun n m st rest => rfl, fun s rest => rfl,
    fun rest => rfl, fun m st rest => ?_, fun k m st r => ?_⟩
  · cases h : sendLoop retryIntervalMs rest <;>
      simp [sendLoop, isInstanceOfTimeoutError, h]
  · induction k with
    | zero => simp [sendLoop]
    | succ k ih =>
      simp [List.replicate_succ, sendLoop, isInstanceOfTimeoutError, ih,
        Nat.succ_mul]

/-- Claim C5: when the user run function rejects, the handler issues
exactly one `SEND_WORKFLOW_ERROR` (whatever the completion-send
environment, since the `then` branch never runs) carrying
`parseAnyError` of the thrown value, and zero completion calls; an
`Error` instance keeps its `name`, `message` and `stack` as
`{name, message, stackTrace}`, while a plain string or `undefined`
normalizes to `{name: UnknownError, message: An unknown error
occurred}`. -/
theorem claim_C5_error_normalization :
    (∀ (data : TriggerWorkflowData) (e : ThrownValue) (completeSend : SendResult),
        outcomeCalls data (.rejected e) completeSend
          = [OutCall.sendWorkflowError data.id data.meta.workflowId
              (parseAnyError e)])
    ∧ (∀ (data : TriggerWorkflowData) (e : ThrownValue) (completeSend : SendResult),
        (outcomeCalls data (.rejected e) completeSend).countP isCompleteCall = 0)
    ∧ (∀ (n m : String) (st : Option String),
        parseAnyError (ThrownValue.errorVal n m st)
          = ⟨n, m, st⟩)
    ∧ (∀ s : String,
        parseAnyError (ThrownValue.stringVal s)
          = ⟨"UnknownError", "An unknown error occurred", none⟩)
    ∧ parseAnyError ThrownValue.undefinedVal
        = ⟨"UnknownError", "An unknown error occurred", none⟩ := by
  refine ⟨fun data e cs => rfl, fun data e cs => ?_, fun n m st => rfl,
    fun s => rfl, rfl⟩
  simp [outcomeCalls, List.countP_cons, isCompleteCall]

/-- Claim C8, counterexample: the endpoint has no process-environment
fallback. With no endpoint in the options and an endpoint-bearing
environment variable present, construction uses the hard-coded default
`ws://trigger.dev/ws` and ignores the environment value — so the
endpoint is not "resolvable from a process-environment fallback" as the
claim states. -/
theorem claim_C8_counterexample :
    construct ⟨some "sk", none⟩ ⟨none, some "ws://env.example/ws"⟩
      = Except.ok ⟨"sk", "ws://trigger.dev/ws", false⟩
    ∧ ("ws://trigger.dev/ws" : String) ≠ "ws://env.example/ws" := by
  exact ⟨rfl, by decide⟩

/-- Claim C8 as amended: the API credential is resolvable from the
`apiKey` option or the `TRIGGER_API_KEY` environment variable, and a
missing (or empty) credential makes construction fail with the fatal
API-key error before anything else — no connection is attempted, since
only `listen` on a constructed client connects. The endpoint is
resolvable from the `endpoint` option or the fixed default
`ws://trigger.dev/ws`; the environment plays no part in it. -/
theorem claim_C8_amended :
    (∀ eo ee : Option String,
        construct ⟨none, eo⟩ ⟨none, ee⟩ = Except.error apiKeyErrorMessage)
    ∧ (∀ (k : String) (eo ee : Option String),
        construct ⟨none, eo⟩ ⟨some k, ee⟩
          = if k = "" then Except.error apiKeyErrorMessage
            else Except.ok ⟨k, eo.getD defaultEndpoint, false⟩)
    ∧ (∀ (k : String) (eo ek ee : Option String),
        construct ⟨some k, eo⟩ ⟨ek, ee⟩
          = if k = "" then Except.error apiKeyErrorMessage
            else Except.ok ⟨k, eo.getD defaultEndpoint, false⟩) := by
  refine ⟨fun eo ee => rfl, fun k eo ee => ?_, fun k eo ek ee => ?_⟩
  · by_cases hk : k = "" <;> simp [construct, hk]
  · by_cases hk : k = "" <;> simp [construct, hk]

/-- Claim C10: the `onClose` handler only writes the close code (always)
and the reason (when truthy) to the error log; the client state is
returned unchanged, so the `isConnected` flag set to `true` when the
connection completed startup stays `true` forever, regardless of later
connection loss. -/
theorem claim_C10_close_keeps_connected :
    (∀ (s : ClientState) (code : Nat) (reason : String),
        (onCloseHandler s code reason).1 = s)
    ∧ (∀ s : ClientState, (afterConnect s).isConnected = true)
    ∧ (∀ (s : ClientState) (code : Nat) (reason : String),
        ((onCloseHandler (afterConnect s) code reason).1).isConnected = true)
    ∧ (∀ (s : ClientState) (code : Nat) (reason : String),
        (onCloseHandler s code reason).2
          = ("Could not connect to trigger.dev (code " ++ toString code ++ ")")
              :: (if reason = "" then [] else [reason])) :=
  ⟨fun _ _ _ => rfl, fun _ => rfl, fun _ _ _ => rfl, fun _ _ _ => rfl⟩

/-- Claim C4, counterexample: consider a run that resolves with
`{y: 2}` while the completion send rejects with a `TimeoutError` (no
retry protects it). The `catch` attached after the `then` then fires
and issues a `SEND_WORKFLOW_ERROR` — so the number of
`SEND_WORKFLOW_ERROR` calls for an invocation whose run function
resolved is not zero, refuting the claim as stated. -/
theorem claim_C4_counterexample :
    (outcomeCalls ⟨"run1", ⟨"live", "key", "org", "wf1"⟩, JsValue.vNull⟩
        (.resolved (JsValue.vObj (.cons "y" (.vNum 2) .nil)))
        (.fail (ThrownValue.timeoutErrorVal "RPC call timed out" none))).countP
      isWorkflowErrorCall ≠ 0 := by
  decide

/-- Claim C4 as amended: when the user run function resolves with `V`,
exactly one `COMPLETE_WORKFLOW_RUN` is issued, carrying the run id, the
workflow id from the invocation metadata and `JSON.stringify(V)` as
output; zero `SEND_WORKFLOW_ERROR` calls are issued provided the
completion send itself resolves — if it rejects, one additional
`SEND_WORKFLOW_ERROR` carrying the send's rejection is issued. The
spec's example scenario is included: output `{y: 2}` on run `run1` of
workflow `wf1` yields exactly `COMPLETE_WORKFLOW_RUN` with output
string `{"y":2}`. -/
theorem claim_C4_completion_amended :
    (∀ (data : TriggerWorkflowData) (v : JsValue),
        outcomeCalls data (.resolved v) .ok
          = [OutCall.completeRun data.id (jsonStringifyStr v)
              data.meta.workflowId])
    ∧ (∀ (data : TriggerWorkflowData) (v : JsValue) (e : ThrownValue),
        outcomeCalls data (.resolved v) (.fail e)
          = [OutCall.completeRun data.id (jsonStringifyStr v)
               data.meta.workflowId,
             OutCall.sendWorkflowError data.id data.meta.workflowId
               (parseAnyError e)])
    ∧ (∀ (data : TriggerWorkflowData) (v : JsValue) (cs : SendResult),
        (outcomeCalls data (.resolved v) cs).countP isCompleteCall = 1)
    ∧ outcomeCalls ⟨"run1", ⟨"live", "key", "org", "wf1"⟩, JsValue.vNull⟩
        (.resolved (JsValue.vObj (.cons "y" (.vNum 2) .nil))) .ok
        = [OutCall.completeRun "run1" (some "\x7b\"y\":2\x7d") "wf1"] := by
  refine ⟨fun data v => rfl, fun data v e => rfl, fun data v cs => ?_, by decide⟩
  cases cs <;> simp [outcomeCalls, List.countP_cons, isCompleteCall]

/-- Claim C2, counterexample: with the run resolved and the completion
send rejecting with a `TimeoutError`, the handler issues exactly one
`COMPLETE_WORKFLOW_RUN` attempt — it does not retry, because the
outcome calls use the raw `serverRPC.send` and not the retrying
wrapper — whereas the retry policy would have attempted again (two
attempts when the timeout is followed by a success); instead the
`catch` issues a `SEND_WORKFLOW_ERROR` carrying the timeout. -/
theorem claim_C2_counterexample :
    (outcomeCalls ⟨"run1", ⟨"live", "key", "org", "wf1"⟩, JsValue.vNull⟩
        (.resolved (JsValue.vNum 2))
        (.fail (ThrownValue.timeoutErrorVal "RPC call timed out" none))).countP
      isCompleteCall = 1
    ∧ attemptsIssuedClaimed
        [Attempt.failure (ThrownValue.timeoutErrorVal "RPC call timed out" none),
         Attempt.success (JsValue.vBool true)] = 2
    ∧ (outcomeCalls ⟨"run1", ⟨"live", "key", "org", "wf1"⟩, JsValue.vNull⟩
        (.resolved (JsValue.vNum 2))
        (.fail (ThrownValue.timeoutErrorVal "RPC call timed out" none))).countP
      isWorkflowErrorCall = 1 :=
  ⟨by decide, by decide, by decide⟩

/-- Claim C2 as amended: the outcome-reporting calls are issued through
the raw RPC send, not through the retry policy, so each of
`COMPLETE_WORKFLOW_RUN` and `SEND_WORKFLOW_ERROR` is attempted at most
once per invocation whatever its send's fate; and a failure to report
the outcome never re-invokes the user run function — the trace of an
invocation contains exactly one run invocation for every environment. -/
theorem claim_C2_outcome_no_retry_amended :
    (∀ (data : TriggerWorkflowData) (result : RunResult) (cs : SendResult),
        (outcomeCalls data result cs).countP isCompleteCall ≤ 1
        ∧ (outcomeCalls data result cs).countP isWorkflowErrorCall ≤ 1)
    ∧ (∀ (data : TriggerWorkflowData) (actions : List UserAction)
          (logOutcomes : List SendResult) (result : RunResult)
          (cs : SendResult),
        (invocationTrace data actions logOutcomes result cs).countP
          isRunInvokedEvent = 1) := by
  constructor
  · intro data result cs
    cases result <;> cases cs <;>
      simp [outcomeCalls, List.countP_cons, isCompleteCall, isWorkflowErrorCall]
  · intro data actions logOutcomes result cs
    simp [invocationTrace, List.countP_cons, List.countP_append,
      List.countP_map, isRunInvokedEvent, Function.comp,
      attachOutcomes_countP isRunInvokedEvent (fun _ _ => rfl)]

/-- Claim C6, counterexample: when the run resolves but the completion
send rejects, the invocation's trace carries two outcome calls (the
completion attempt and the `SEND_WORKFLOW_ERROR` issued by the `catch`
hung after the `then`), refuting "at most one outcome call is issued
per invocation". -/
theorem claim_C6_counterexample :
    ¬ ((invocationTrace ⟨"run1", ⟨"live", "key", "org", "wf1"⟩, JsValue.vNull⟩
          [] [] (.resolved JsValue.vNull)
          (.fail (ThrownValue.timeoutErrorVal "RPC call timed out" none))).countP
        isOutcomeEvent ≤ 1) := by
  decide

/-- Claim C6 as amended: in every invocation trace the outcome calls
come strictly after the `runSettled` event — everything before it is
the invocation itself or a context call — and each of
`COMPLETE_WORKFLOW_RUN` and `SEND_WORKFLOW_ERROR` is issued at most
once; but the total number of outcome calls is two, not at most one,
exactly when the run resolved and the completion send rejected. -/
theorem claim_C6_ordering_amended :
    (∀ (data : TriggerWorkflowData) (actions : List UserAction)
        (logOutcomes : List SendResult) (result : RunResult)
        (completeSend : SendResult),
      ∃ pre : List InvEvent,
        invocationTrace data actions logOutcomes result completeSend
          = pre ++ InvEvent.runSettled result
              :: (outcomeCalls data result completeSend).map InvEvent.outcomeCall
        ∧ pre.countP isOutcomeEvent = 0)
    ∧ (∀ (data : TriggerWorkflowData) (result : RunResult) (cs : SendResult),
        (outcomeCalls data result cs).countP isCompleteCall ≤ 1
        ∧ (outcomeCalls data result cs).countP isWorkflowErrorCall ≤ 1)
    ∧ (∀ (data : TriggerWorkflowData) (result : RunResult) (cs : SendResult),
        ((outcomeCalls data result cs).length = 2
          ↔ (∃ v, result = RunResult.resolved v)
            ∧ (∃ e, cs = SendResult.fail e))) := by
  refine ⟨fun data actions logOutcomes result completeSend => ?_,
    fun data result cs => ?_, fun data result cs => ?_⟩
  · refine ⟨InvEvent.runInvoked
      :: attachOutcomes (actions.flatMap (contextActionCalls data.id)) logOutcomes,
      by simp [invocationTrace], ?_⟩
    simp [List.countP_cons, isOutcomeEvent,
      attachOutcomes_countP isOutcomeEvent (fun _ _ => rfl)]
  · cases result <;> cases cs <;>
      simp [outcomeCalls, List.countP_cons, isCompleteCall, isWorkflowErrorCall]
  · cases result <;> cases cs <;> simp [outcomeCalls]

/-- The outcome-call portion of an invocation trace is exactly the
mapped `outcomeCalls`: the context calls filtered out contribute
nothing. -/
theorem invocationTrace_filter_outcome (data : TriggerWorkflowData)
    (actions : List UserAction) (logOutcomes : List SendResult)
    (result : RunResult) (completeSend : SendResult) :
    (invocationTrace data actions logOutcomes result completeSend).filter
        isOutcomeEvent
      = (outcomeCalls data result completeSend).map InvEvent.outcomeCall := by
  cases result <;> cases completeSend <;>
    simp [invocationTrace, outcomeCalls, List.filter_cons, List.filter_append,
      isOutcomeEvent, attachOutcomes_filter_outcome]

/-- Claim C7: the outcome of a workflow invocation is unaffected by the
fate of its `SEND_LOG` calls — the outcome-call portion of the trace is
the same for any two log-send environments, and is determined by the
payload, the run result and the completion send alone; and each
`logger.log` call issues exactly one raw `SEND_LOG` send (no retry loop
and no extra waiting around it), carrying the run id and
`JSON.stringify(properties ?? \x7b\x7d)`. -/
theorem claim_C7_logging_isolated :
    (∀ (data : TriggerWorkflowData) (actions : List UserAction)
        (result : RunResult) (completeSend : SendResult)
        (o1 o2 : List SendResult),
      (invocationTrace data actions o1 result completeSend).filter isOutcomeEvent
        = (invocationTrace data actions o2 result completeSend).filter
            isOutcomeEvent)
    ∧ (∀ (data : TriggerWorkflowData) (actions : List UserAction)
          (logOutcomes : List SendResult) (result : RunResult)
          (completeSend : SendResult),
        (invocationTrace data actions logOutcomes result completeSend).filter
            isOutcomeEvent
          = (outcomeCalls data result completeSend).map InvEvent.outcomeCall)
    ∧ (∀ (runId level message : String) (properties : Option JsValue),
        contextLogCalls runId level message properties
          = [OutCall.sendLog runId level message
              (jsonStringifyStr (properties.getD (JsValue.vObj JsObj.nil)))]) :=
  ⟨fun data actions result completeSend o1 o2 => by
      rw [invocationTrace_filter_outcome, invocationTrace_filter_outcome],
   fun data actions logOutcomes result completeSend =>
      invocationTrace_filter_outcome data actions logOutcomes result completeSend,
   fun _ _ _ _ => rfl⟩

/-- Claim C9: `fireEvent` sends the event only after the
serialize/deserialize deep-copy round trip — the single `SEND_EVENT`
call is tagged with the invocation's run identifier and carries the
round-tripped value — and for an event built from the base payload
types the delivered event equals the original. -/
theorem claim_C9_fire_event :
    (∀ (data : TriggerWorkflowData) (event copied : JsValue),
        jsonRoundTrip event = some copied →
          contextActionCalls data.id (UserAction.fire event)
            = [OutCall.sendEvent data.id copied])
    ∧ (∀ (data : TriggerWorkflowData) (event : JsValue),
        isBase event = true →
          contextActionCalls data.id (UserAction.fire event)
            = [OutCall.sendEvent data.id event]) := by
  constructor
  · intro data event copied h
    simp [contextActionCalls, fireEventCalls, h]
  · intro data event h
    simp [contextActionCalls, fireEventCalls, jsonRoundTrip_base event h]

/-- Witness for claim C9 at concrete inputs: a nested base-typed event
is delivered unchanged on run `run1`, and an array containing a
function is delivered with that element stripped to `null`. -/
theorem claim_C9_fire_event_witness :
    contextActionCalls "run1"
        (UserAction.fire (JsValue.vObj (.cons "y" (.vNum 2)
          (.cons "tags" (.vArr (.cons (.vStr "a") .nil)) .nil))))
      = [OutCall.sendEvent "run1"
          (JsValue.vObj (.cons "y" (.vNum 2)
            (.cons "tags" (.vArr (.cons (.vStr "a") .nil)) .nil)))]
    ∧ contextActionCalls "run1"
        (UserAction.fire (JsValue.vArr (.cons JsValue.vFunc .nil)))
      = [OutCall.sendEvent "run1" (JsValue.vArr (.cons JsValue.vNull .nil))] :=
  ⟨claim_C9_fire_event.2 ⟨"run1", ⟨"live", "key", "org", "wf1"⟩, JsValue.vNull⟩
      _ (by decide),
   claim_C9_fire_event.1 ⟨"run1", ⟨"live", "key", "org", "wf1"⟩, JsValue.vNull⟩
      _ _ (by decide)⟩
